import Mathlib

/-!
Shallow embedding of `src/gpu.js` (the GPU facade of gpu.js): backend
selection in the constructor, `createKernel`, `combineKernels`, `execute`,
and `getCanvas`, together with the result decoder used by the callable
returned from `combineKernels`.

Opaque host values (canvas, WebGL context) are represented by `Nat`
identifiers.  JS exceptions are modelled with an explicit error type and
`Except`; the implicit `TypeError` raised by dereferencing `null` is one of
its constructors.
-/

namespace GPUJs

/-- Errors surfaced by the facade.  `configuration` is the `throw` in the
constructor's `default` switch case; `invalidArgument` covers the two string
throws in `createKernel`; `typeError` is the implicit JS `TypeError` from
dereferencing `null`; `noActiveKernel` is the checked error named by the
spec's taxonomy (the source never raises it). -/
inductive GPUError where
  | configuration (mode : String)
  | invalidArgument (msg : String)
  | typeError
  | noActiveKernel
deriving DecidableEq, Repr

/-- A JS value, as far as the facade's argument checks observe it. -/
inductive JSValue where
  | undefined
  | number (n : Int)
  | str (s : String)
  | func (id : Nat)
deriving DecidableEq, Repr

/-- Modelled from the spec: `utils.isFunction` (the `utils` module is not
under `src/`) — true exactly for callable values. -/
def JSValue.isFunction : JSValue → Bool
  | .func _ => true
  | _ => false

/-- A compiled kernel, as observed by `gpu.js`: the canvas / WebGL context
back-references, the `outputToTexture` and `floatOutput` flags, the padded
2D buffer size `texSize`, the padded-to-3 `threadDim`, and the logical
`dimensions`. -/
structure Kernel where
  canvas : Nat
  webGl : Nat
  outputToTexture : Bool
  floatOutput : Bool
  texSize : Nat × Nat
  threadDim : List Nat
  dimensions : List Nat
deriving DecidableEq, Repr

/-- `kernel.setCanvas(canvas)` (chainable setter). -/
def Kernel.setCanvas (k : Kernel) (c : Nat) : Kernel := { k with canvas := c }

/-- `kernel.setWebGl(webGl)` (chainable setter). -/
def Kernel.setWebGl (k : Kernel) (g : Nat) : Kernel := { k with webGl := g }

/-- `kernel.setOutputToTexture(flag)` (chainable setter). -/
def Kernel.setOutputToTexture (k : Kernel) (b : Bool) : Kernel :=
  { k with outputToTexture := b }

/-- The settings object accepted by the constructor.  `mode = none` models
an absent (or falsy) `settings.mode`. -/
structure Settings where
  canvas : Option Nat
  webGl : Option Nat
  mode : Option String
deriving DecidableEq, Repr

/-- Which runner the constructor builds; `webglValidator` is the
`WebGLRunner` with its `Kernel` class swapped for the validator variant. -/
inductive RunnerKind where
  | cpu
  | webgl
  | webglValidator
deriving DecidableEq, Repr

/-- Outcome of a successful construction: the runner that was built and
whether the `console.warn` fallback message was emitted. -/
structure ConstructResult where
  runner : RunnerKind
  warned : Bool
deriving DecidableEq, Repr

/-- `mode.toLowerCase()`: lower-cases every character of the string.  (This
is extensionally `String.toLower`, written directly over the character list
so that concrete instances reduce.) -/
def jsToLower (s : String) : String := ⟨s.data.map Char.toLower⟩

/-- The constructor of `GPU`:
`let mode = settings.mode || 'webgl'`, then an unconditional downgrade to
`'cpu'` (with a warning) when `utils.isWebGlSupported` is false, then the
`switch (mode.toLowerCase())` that builds the runner or throws on an
unknown mode.  `isWebGlSupported` (a capability probe living outside
`src/`) is passed in as a boolean. -/
def construct (settings : Settings) (isWebGlSupported : Bool) :
    Except GPUError ConstructResult :=
  let mode0 := settings.mode.getD "webgl"
  let warned := !isWebGlSupported
  let mode := if isWebGlSupported then mode0 else "cpu"
  let m := jsToLower mode
  if m = "cpu" then .ok ⟨.cpu, warned⟩
  else if m = "gpu" then .ok ⟨.webgl, warned⟩
  else if m = "webgl" then .ok ⟨.webgl, warned⟩
  else if m = "webgl-validator" then .ok ⟨.webglValidator, warned⟩
  else .error (.configuration mode)

/-- The facade state that `createKernel` / `execute` / `getCanvas` share:
`_kernelSynchronousExecutor`, initialised to `null`. -/
structure GPUState where
  executor : Option Kernel
deriving DecidableEq, Repr

/-- `createKernel(fn, settings)`: throws on an undefined or non-callable
`fn`, otherwise delegates to `this._runner.buildKernel` (here the abstract
`build`; the `settings` object is forwarded opaquely and not modelled),
stores the kernel in `_kernelSynchronousExecutor` and returns it. -/
def createKernel (build : JSValue → Kernel) (st : GPUState) (fn : JSValue) :
    Except GPUError (GPUState × Kernel) :=
  if fn = .undefined then .error (.invalidArgument "Missing fn parameter")
  else if ¬ fn.isFunction then .error (.invalidArgument "fn parameter not a function")
  else
    let k := build fn
    .ok ({ st with executor := some k }, k)

/-- `getCanvas()` is `return this._kernelSynchronousExecutor.canvas`: with
no kernel created yet the receiver is `null` and the property access raises
an implicit `TypeError`. -/
def getCanvas (st : GPUState) : Except GPUError Nat :=
  match st.executor with
  | none => .error .typeError
  | some k => .ok k.canvas

/-- Outcome of invoking a kernel callable (a JS call either returns a value
or throws). -/
inductive CallResult (α : Type) where
  | ok (v : α)
  | err (e : GPUError)
deriving DecidableEq, Repr

/-- Modelled from the spec: the deferred result handle produced by
`utils.newPromise` (the `utils` module is not under `src/`) — a settled
promise is either resolved with a value or rejected with a failure. -/
inductive Promise (α : Type) where
  | resolved (v : α)
  | rejected (e : GPUError)
deriving DecidableEq, Repr

/-- The argument normalisation in `execute`:
`arguments.length === 1 ? [arguments[0]] : Array.apply(null, arguments)`. -/
def executeArgs {α : Type} (args : List α) : List α :=
  match args with
  | [a] => [a]
  | _ => args

/-- `execute(...args)`: builds a promise whose executor synchronously
applies `_kernelSynchronousExecutor` to the arguments inside `try/catch`,
accepting the return value and rejecting with any thrown error.  When no
kernel was ever created the executor is `null` and `.apply` throws a
`TypeError`, which the `catch` turns into a rejection. -/
def execute {α : Type} (executor : Option (List α → CallResult α))
    (args : List α) : Promise α :=
  let as := executeArgs args
  match executor with
  | none => .rejected .typeError
  | some k =>
    match k as with
    | .ok v => .resolved v
    | .err e => .rejected e

/-- Modelled from the spec: `utils.splitArray` (the `utils` module is not
under `src/`) splits a flat buffer into contiguous chunks of the given
length, in buffer order. -/
def splitArray {α : Type} : List α → Nat → List (List α)
  | [], _ => []
  | _ :: _, 0 => []
  | x :: xs, n + 1 => (x :: xs).take (n + 1) :: splitArray (xs.drop n) (n + 1)
termination_by l _ => l.length
decreasing_by
  simp only [List.length_drop, List.length_cons]
  omega

/-- `result.subarray(0, threadDim[0] * threadDim[1] * threadDim[2])`: the
truncation of the flat readback buffer to the logical thread volume
(`List.take` clamps exactly as `subarray` does). -/
def truncatedResult {α : Type} (k : Kernel) (raw : List α) : List α :=
  raw.take (k.threadDim.getD 0 0 * (k.threadDim.getD 1 0 * k.threadDim.getD 2 0))

/-- The value returned by the combined-kernel closure, whose nesting depth
follows `dimensions.length`; `undefined` is the implicit `undefined` return
when the length is not 1, 2 or 3. -/
inductive KernelResult (α : Type) where
  | d1 (xs : List α)
  | d2 (xs : List (List α))
  | d3 (xs : List (List (List α)))
  | undefined
deriving DecidableEq, Repr

/-- The tail of the closure returned by `combineKernels`: truncate the flat
readback buffer `raw` (already read via `readPixels`, and on the byte path
already bit-reinterpreted) by `threadDim`, then reshape by
`dimensions.length` using `splitArray`. -/
def combinedKernelOutput {α : Type} (k : Kernel) (raw : List α) : KernelResult α :=
  let result := truncatedResult k raw
  if k.dimensions.length = 1 then .d1 result
  else if k.dimensions.length = 2 then
    .d2 (splitArray result (k.dimensions.getD 0 0))
  else if k.dimensions.length = 3 then
    .d3 ((splitArray result (k.dimensions.getD 0 0 * k.dimensions.getD 1 0)).map
      (fun x => splitArray x (k.dimensions.getD 0 0)))
  else .undefined

/-- The configuration loop of `combineKernels`:
`canvas`/`webGl` are read from `arguments[0]` and then
`for (let i = 0; i < arguments.length - 1; i++)` runs the chained setters
on every listed kernel (the bound excludes only the trailing combinator
function). -/
def combineConfigure : List Kernel → List Kernel
  | [] => []
  | k0 :: rest =>
    (k0 :: rest).map fun k =>
      ((k.setCanvas k0.canvas).setWebGl k0.webGl).setOutputToTexture true

/-- What `combineKernels` returns: in CPU mode the combinator itself,
untouched (`passthrough`); otherwise a new closure over the configured
kernels and the combinator (`pipeline`). -/
inductive CombineResult (α : Type) where
  | passthrough (comb : α)
  | pipeline (kernels : List Kernel) (comb : α)
deriving DecidableEq, Repr

/-- `combineKernels(...kernels, combinedKernelFn)`: early return of the
combinator when `this.mode === 'cpu'`, otherwise the configuration loop
followed by construction of the readback closure. -/
def combineKernels {α : Type} (mode : String) (kernels : List Kernel)
    (comb : α) : CombineResult α :=
  if mode = "cpu" then .passthrough comb
  else .pipeline (combineConfigure kernels) comb

/-! ### Helper lemmas about `splitArray` -/

theorem splitArray_append {α : Type} (a b : List α) (n : Nat)
    (h : a.length = n + 1) :
    splitArray (a ++ b) (n + 1) = a :: splitArray b (n + 1) := by
  obtain ⟨x, xs, rfl⟩ : ∃ x xs, a = x :: xs := by
    cases a with
    | nil => simp at h
    | cons x xs => exact ⟨x, xs, rfl⟩
  have hxs : xs.length = n := by simpa using h
  subst hxs
  simp [splitArray, List.take_succ_cons, List.take_left, List.drop_left]

theorem splitArray_map {α β : Type} (f : α → β) (l : List α) (n : Nat) :
    splitArray (l.map f) n = (splitArray l n).map (List.map f) := by
  induction l, n using splitArray.induct with
  | case1 n => simp [splitArray]
  | case2 x xs => simp [splitArray]
  | case3 x xs n ih =>
    simp only [List.map_cons, splitArray, ← List.map_drop, ih, List.map_take]

theorem splitArray_range_mul (n : Nat) : ∀ m : Nat,
    splitArray (List.range (m * (n + 1))) (n + 1) =
      (List.range m).map fun i => (List.range (n + 1)).map fun j => i * (n + 1) + j
  | 0 => by simp [splitArray]
  | m + 1 => by
    have hmul : (m + 1) * (n + 1) = (n + 1) + m * (n + 1) := by ring
    have h1 : splitArray (List.range ((m + 1) * (n + 1))) (n + 1)
        = List.range (n + 1) ::
          (splitArray (List.range (m * (n + 1))) (n + 1)).map
            (List.map fun x => n + 1 + x) := by
      rw [hmul, List.range_add, splitArray_append _ _ _ (List.length_range _),
        splitArray_map]
    rw [h1, splitArray_range_mul n m, List.range_succ_eq_map m, List.map_cons,
      List.map_map, List.map_map]
    refine congrArg₂ _ ?_ (List.map_congr_left fun i _ => ?_)
    · simp
    · simp only [Function.comp_apply, Nat.succ_eq_add_one]
      rw [List.map_map]
      refine List.map_congr_left fun j _ => ?_
      simp only [Function.comp_apply]
      ring

/-! ### Claim C4 -/

/-- Claim C4: for every combinator function and every list of kernels, when
the facade's resolved mode is `'cpu'`, `combineKernels` returns the
combinator itself unchanged (the very same value, before any configuration
of the kernels takes place). -/
theorem combineKernels_cpu_identity {α : Type} (kernels : List Kernel) (comb : α) :
    combineKernels "cpu" kernels comb = .passthrough comb := by
  simp [combineKernels]

/-! ### Claim C3 -/

/-- Claim C3 counterexample: in `'webgl'` mode, with two kernels whose
`outputToTexture` flags are both `false`, the returned pipeline has the
LAST kernel's `outputToTexture` forced to `true` as well (and its canvas /
context replaced by the first kernel's) — the configuration loop's bound
`arguments.length - 1` excludes only the trailing combinator, not the last
kernel. -/
theorem combineKernels_forces_last_flag :
    combineKernels "webgl"
        [⟨1, 2, false, false, (4, 4), [2, 1, 1], [2]⟩,
         ⟨3, 4, false, false, (4, 4), [2, 1, 1], [2]⟩] (0 : Nat)
      = .pipeline
        [⟨1, 2, true, false, (4, 4), [2, 1, 1], [2]⟩,
         ⟨1, 2, true, false, (4, 4), [2, 1, 1], [2]⟩] 0 := by
  decide

/-- Claim C3 (amended): in a non-CPU mode, `combineKernels` configures
EVERY listed kernel — the last one included — to share one canvas/context
and sets `outputToTexture` to `true` on all of them; in particular no
intermediate kernel surfaces host-readable output. -/
theorem combineKernels_outputToTexture_all {α : Type} (mode : String)
    (hm : mode ≠ "cpu") (k0 : Kernel) (rest : List Kernel) (comb : α) :
    combineKernels mode (k0 :: rest) comb
      = .pipeline (combineConfigure (k0 :: rest)) comb
    ∧ ∀ k ∈ combineConfigure (k0 :: rest), k.outputToTexture = true := by
  constructor
  · simp [combineKernels, hm]
  · intro k hk
    simp only [combineConfigure, List.mem_map] at hk
    obtain ⟨k', _, rfl⟩ := hk
    rfl

/-- Witness for the amended C3 at a concrete pipeline. -/
theorem combineKernels_outputToTexture_all_witness :
    (combineKernels "webgl"
        [⟨1, 2, false, false, (4, 4), [2, 1, 1], [2]⟩] (0 : Nat)
      = .pipeline (combineConfigure [⟨1, 2, false, false, (4, 4), [2, 1, 1], [2]⟩]) 0)
    ∧ (⟨1, 2, true, false, (4, 4), [2, 1, 1], [2]⟩ : Kernel).outputToTexture = true :=
  ⟨(combineKernels_outputToTexture_all "webgl" (by decide)
      ⟨1, 2, false, false, (4, 4), [2, 1, 1], [2]⟩ [] 0).1,
   (combineKernels_outputToTexture_all "webgl" (by decide)
      ⟨1, 2, false, false, (4, 4), [2, 1, 1], [2]⟩ [] 0).2
     ⟨1, 2, true, false, (4, 4), [2, 1, 1], [2]⟩ (by decide)⟩

/-! ### Claim C10 -/

/-- Claim C10: in a non-CPU mode, `combineKernels` reads the canvas and
WebGL context of the FIRST listed kernel and assigns that same pair to
every kernel of the pipeline, whatever each kernel referenced before. -/
theorem combineKernels_assigns_first_context {α : Type} (mode : String)
    (hm : mode ≠ "cpu") (k0 : Kernel) (rest : List Kernel) (comb : α) :
    combineKernels mode (k0 :: rest) comb
      = .pipeline (combineConfigure (k0 :: rest)) comb
    ∧ ∀ k ∈ combineConfigure (k0 :: rest),
        k.canvas = k0.canvas ∧ k.webGl = k0.webGl := by
  constructor
  · simp [combineKernels, hm]
  · intro k hk
    simp only [combineConfigure, List.mem_map] at hk
    obtain ⟨k', _, rfl⟩ := hk
    exact ⟨rfl, rfl⟩

/-- Witness for C10 at a concrete pipeline: the second kernel's canvas `9`
and context `10` are replaced by the first kernel's `7` and `8`. -/
theorem combineKernels_assigns_first_context_witness :
    (combineKernels "gpu"
        [⟨7, 8, false, false, (4, 4), [2, 1, 1], [2]⟩,
         ⟨9, 10, false, false, (4, 4), [2, 1, 1], [2]⟩] (0 : Nat)
      = .pipeline (combineConfigure
          [⟨7, 8, false, false, (4, 4), [2, 1, 1], [2]⟩,
           ⟨9, 10, false, false, (4, 4), [2, 1, 1], [2]⟩]) 0)
    ∧ ((⟨7, 8, true, false, (4, 4), [2, 1, 1], [2]⟩ : Kernel).canvas = 7
        ∧ (⟨7, 8, true, false, (4, 4), [2, 1, 1], [2]⟩ : Kernel).webGl = 8) :=
  ⟨(combineKernels_assigns_first_context "gpu" (by decide)
      ⟨7, 8, false, false, (4, 4), [2, 1, 1], [2]⟩
      [⟨9, 10, false, false, (4, 4), [2, 1, 1], [2]⟩] 0).1,
   (combineKernels_assigns_first_context "gpu" (by decide)
      ⟨7, 8, false, false, (4, 4), [2, 1, 1], [2]⟩
      [⟨9, 10, false, false, (4, 4), [2, 1, 1], [2]⟩] 0).2
     ⟨7, 8, true, false, (4, 4), [2, 1, 1], [2]⟩ (by decide)⟩

/-! ### Claims C6 and C7 (constructor) -/

/-- Helper: a successful construction carries the warning flag exactly when
the capability probe failed. -/
theorem construct_warned (s : Settings) (probe : Bool) (r : ConstructResult)
    (h : construct s probe = .ok r) : r.warned = !probe := by
  simp only [construct] at h
  repeat' split at h
  all_goals first
    | (cases h; rfl)
    | (cases h)

/-- Claim C6 counterexample: with the explicit mode `'gpu'` forced and the
capability probe failing, construction still silently downgrades to the CPU
runner and emits the warning — the downgrade is not restricted to the
no-explicit-mode case. -/
theorem construct_downgrades_despite_forced_mode :
    construct ⟨none, none, some "gpu"⟩ false = .ok ⟨.cpu, true⟩ := by
  rfl

/-- Claim C6 (amended): the silent downgrade to CPU (with its non-fatal
warning) happens exactly when the capability probe fails, regardless of
whether an explicit mode was forced; in particular construction with no
mode and the accelerated capability absent resolves to the CPU runner
without throwing. -/
theorem construct_downgrade_iff_probe_fails (s : Settings) :
    construct s false = .ok ⟨.cpu, true⟩
    ∧ (∀ r, construct s true = .ok r → r.warned = false) := by
  refine ⟨rfl, fun r hr => ?_⟩
  simpa using construct_warned s true r hr

/-- Witness for the amended C6: no explicit mode, probe failing → CPU with
warning; probe succeeding → no warning. -/
theorem construct_downgrade_iff_probe_fails_witness :
    construct ⟨none, none, none⟩ false = .ok ⟨.cpu, true⟩
    ∧ (⟨.webgl, false⟩ : ConstructResult).warned = false :=
  ⟨(construct_downgrade_iff_probe_fails ⟨none, none, none⟩).1,
   (construct_downgrade_iff_probe_fails ⟨none, none, none⟩).2 ⟨.webgl, false⟩ rfl⟩

/-- Claim C7 counterexample: with the unrecognized mode `'bogus'` forced
but the capability probe failing, construction does NOT fail with a
configuration error — the downgrade rewrites the mode to `'cpu'` before the
switch, so it succeeds. -/
theorem construct_bogus_no_error_when_unsupported :
    construct ⟨none, none, some "bogus"⟩ false = .ok ⟨.cpu, true⟩ := by
  rfl

/-- Claim C7 (amended): when the capability probe succeeds, an explicitly
forced mode string whose lowercased form is none of `cpu`, `gpu`, `webgl`,
`webgl-validator` makes construction fail synchronously with the
configuration error carrying that mode. -/
theorem construct_unknown_mode_error (s : Settings) (m : String)
    (hm : s.mode = some m)
    (h1 : jsToLower m ≠ "cpu") (h2 : jsToLower m ≠ "gpu")
    (h3 : jsToLower m ≠ "webgl") (h4 : jsToLower m ≠ "webgl-validator") :
    construct s true = .error (.configuration m) := by
  simp [construct, hm, h1, h2, h3, h4]

/-- Witness for the amended C7 at the concrete mode `'bogus'`. -/
theorem construct_unknown_mode_error_witness :
    construct ⟨none, none, some "bogus"⟩ true = .error (.configuration "bogus") :=
  construct_unknown_mode_error ⟨none, none, some "bogus"⟩ "bogus" rfl
    (by decide) (by decide) (by decide) (by decide)

/-! ### Claim C8 -/

/-- Claim C8: `createKernel(fn, settings)` fails with the invalid-argument
error when `fn` is absent (`undefined`) or not a callable value; otherwise
it delegates compilation to the owned runner (`build`), stores the
resulting kernel as the current executor and returns that kernel. -/
theorem createKernel_contract (build : JSValue → Kernel) (st : GPUState)
    (fn : JSValue) :
    (fn = .undefined →
      createKernel build st fn = .error (.invalidArgument "Missing fn parameter"))
    ∧ (fn ≠ .undefined → fn.isFunction = false →
      createKernel build st fn
        = .error (.invalidArgument "fn parameter not a function"))
    ∧ (fn.isFunction = true →
      createKernel build st fn = .ok (⟨some (build fn)⟩, build fn)) := by
  refine ⟨fun h => ?_, fun h1 h2 => ?_, fun h => ?_⟩
  · subst h; rfl
  · simp [createKernel, h1, h2]
  · have h0 : fn ≠ .undefined := by
      cases fn <;> simp_all [JSValue.isFunction]
    simp [createKernel, h0, h]

/-- Witness for C8: `undefined` and `42` are rejected; a callable is
compiled, stored and returned. -/
theorem createKernel_contract_witness :
    createKernel (fun _ => ⟨0, 0, false, false, (1, 1), [1, 1, 1], [1]⟩)
        ⟨none⟩ .undefined
      = .error (.invalidArgument "Missing fn parameter")
    ∧ createKernel (fun _ => ⟨0, 0, false, false, (1, 1), [1, 1, 1], [1]⟩)
        ⟨none⟩ (.number 42)
      = .error (.invalidArgument "fn parameter not a function")
    ∧ createKernel (fun _ => ⟨0, 0, false, false, (1, 1), [1, 1, 1], [1]⟩)
        ⟨none⟩ (.func 1)
      = .ok (⟨some ⟨0, 0, false, false, (1, 1), [1, 1, 1], [1]⟩⟩,
             ⟨0, 0, false, false, (1, 1), [1, 1, 1], [1]⟩) :=
  ⟨(createKernel_contract (fun _ => ⟨0, 0, false, false, (1, 1), [1, 1, 1], [1]⟩)
      ⟨none⟩ .undefined).1 rfl,
   (createKernel_contract (fun _ => ⟨0, 0, false, false, (1, 1), [1, 1, 1], [1]⟩)
      ⟨none⟩ (.number 42)).2.1 (by decide) rfl,
   (createKernel_contract (fun _ => ⟨0, 0, false, false, (1, 1), [1, 1, 1], [1]⟩)
      ⟨none⟩ (.func 1)).2.2 rfl⟩

/-! ### Claim C9 -/

/-- Claim C9 counterexample: on a fresh facade (no kernel ever created),
`getCanvas` fails with the implicit `TypeError` of the null dereference
`this._kernelSynchronousExecutor.canvas`, which is not the checked
`noActiveKernel` error the claim requires. -/
theorem getCanvas_null_deref :
    getCanvas ⟨none⟩ = .error .typeError
    ∧ GPUError.typeError ≠ GPUError.noActiveKernel :=
  ⟨rfl, by decide⟩

/-- Claim C9 (amended): `getCanvas` returns the canvas of the current
executor kernel when one exists; with no kernel created yet it fails with
the unchecked `TypeError` of a null dereference, not with a checked
`noActiveKernel` error. -/
theorem getCanvas_contract (st : GPUState) :
    (∀ k, st.executor = some k → getCanvas st = .ok k.canvas)
    ∧ (st.executor = none → getCanvas st = .error .typeError) := by
  refine ⟨fun k hk => ?_, fun h => ?_⟩
  · simp [getCanvas, hk]
  · simp [getCanvas, h]

/-- Witness for the amended C9 at concrete states. -/
theorem getCanvas_contract_witness :
    getCanvas ⟨some ⟨9, 0, false, false, (1, 1), [1, 1, 1], [1]⟩⟩ = .ok 9
    ∧ getCanvas ⟨none⟩ = .error .typeError :=
  ⟨(getCanvas_contract ⟨some ⟨9, 0, false, false, (1, 1), [1, 1, 1], [1]⟩⟩).1
      ⟨9, 0, false, false, (1, 1), [1, 1, 1], [1]⟩ rfl,
   (getCanvas_contract ⟨none⟩).2 rfl⟩

/-! ### Claim C5 -/

/-- Claim C5: `execute(...args)` always returns a deferred handle — the
promise is a value that is either a resolution or a rejection, never a
synchronous throw; the arguments are forwarded unchanged; when the stored
kernel's invocation throws, the handle is rejected with that failure, and
when it returns, the handle resolves to its return value. -/
theorem execute_defers {α : Type} (k : List α → CallResult α) (args : List α) :
    executeArgs args = args
    ∧ (∀ e, k args = .err e → execute (some k) args = .rejected e)
    ∧ (∀ v, k args = .ok v → execute (some k) args = .resolved v)
    ∧ ((∃ v, execute (some k) args = .resolved v)
        ∨ (∃ e, execute (some k) args = .rejected e)) := by
  have ha : executeArgs args = args := by
    cases args with
    | nil => rfl
    | cons a t =>
      cases t with
      | nil => rfl
      | cons b r => rfl
  refine ⟨ha, fun e he => ?_, fun v hv => ?_, ?_⟩
  · simp [execute, ha, he]
  · simp [execute, ha, hv]
  · cases hk : k args with
    | ok v => exact Or.inl ⟨v, by simp [execute, ha, hk]⟩
    | err e => exact Or.inr ⟨e, by simp [execute, ha, hk]⟩

/-- Witness for C5: a kernel that returns resolves the handle, a kernel
that throws rejects it, with the argument list forwarded unchanged. -/
theorem execute_defers_witness :
    executeArgs ([3] : List Nat) = [3]
    ∧ execute (some fun _ => CallResult.ok (7 : Nat)) [3] = .resolved 7
    ∧ execute (some fun _ => CallResult.err (α := Nat) .typeError) [3]
        = .rejected .typeError :=
  ⟨(execute_defers (fun _ => CallResult.ok (7 : Nat)) [3]).1,
   (execute_defers (fun _ => CallResult.ok (7 : Nat)) [3]).2.2.1 7 rfl,
   (execute_defers (fun _ => CallResult.err (α := Nat) .typeError) [3]).2.1
     .typeError rfl⟩

/-! ### Claims C1 and C2 (readback truncation and decoding) -/

/-- Helper: chunking `0..m*w-1` into rows of a positive width `w`. -/
theorem splitArray_range_pos (w m : Nat) (hw : 0 < w) :
    splitArray (List.range (m * w)) w
      = (List.range m).map fun i => (List.range w).map fun j => i * w + j := by
  obtain ⟨w', rfl⟩ : ∃ w', w = w' + 1 := ⟨w - 1, by omega⟩
  exact splitArray_range_mul w' m

/-- Claim C2: for a final kernel of dimensions `[w, h, d]` (with the
runner-maintained `threadDim` equal to those dimensions), the flat readback
buffer is truncated to exactly `w * h * d` elements — any trailing
`texSize` padding is discarded — and it is this truncated buffer that is
reshaped. -/
theorem combineKernels_truncation (w h d : Nat) (k : Kernel) (raw : List Nat)
    (hdim : k.dimensions = [w, h, d]) (htd : k.threadDim = [w, h, d])
    (hlen : w * h * d ≤ raw.length) :
    truncatedResult k raw = raw.take (w * h * d)
    ∧ (truncatedResult k raw).length = w * h * d
    ∧ combinedKernelOutput k raw
        = .d3 ((splitArray (raw.take (w * h * d)) (w * h)).map
            fun x => splitArray x w) := by
  have ht : truncatedResult k raw = raw.take (w * h * d) := by
    simp [truncatedResult, htd, Nat.mul_assoc]
  refine ⟨ht, ?_, ?_⟩
  · rw [ht, List.length_take]
    omega
  · simp only [combinedKernelOutput, truncatedResult, htd, hdim]
    simp [Nat.mul_assoc]

/-- Witness for C2: a buffer of two elements for a `1×1×1` kernel is
truncated to its single logical element before reshaping. -/
theorem combineKernels_truncation_witness :
    truncatedResult ⟨0, 0, false, false, (2, 1), [1, 1, 1], [1, 1, 1]⟩
        ([5, 7] : List Nat) = [5]
    ∧ (truncatedResult ⟨0, 0, false, false, (2, 1), [1, 1, 1], [1, 1, 1]⟩
        ([5, 7] : List Nat)).length = 1 * 1 * 1
    ∧ combinedKernelOutput ⟨0, 0, false, false, (2, 1), [1, 1, 1], [1, 1, 1]⟩
        ([5, 7] : List Nat) = .d3 [[[5]]] := by
  have h := combineKernels_truncation 1 1 1
    ⟨0, 0, false, false, (2, 1), [1, 1, 1], [1, 1, 1]⟩ [5, 7] rfl rfl
    (by decide)
  exact ⟨h.1.trans (by decide), h.2.1, h.2.2.trans (by norm_num [splitArray])⟩

/-- Claim C1: the decoded result of a combined-kernel invocation follows
the final kernel's `dimensions` length — for `[w]` the truncated flat
sequence itself; for `[w, h]` a sequence of `h` rows of length `w`, split
contiguously in buffer order (outer index = second dimension); for
`[w, h, d]` the synthetic buffer `0..w*h*d-1` decodes to `d` groups of `h`
rows of length `w` whose entry at `[z][y][x]` is exactly the flat index
`z*(w*h) + (y*w + x)`. -/
theorem combinedKernelOutput_nesting (w h d : Nat)
    (hw : 0 < w) (hh : 0 < h) (_hd : 0 < d) :
    (∀ k : Kernel, k.dimensions = [w] → k.threadDim = [w, 1, 1] →
      combinedKernelOutput k (List.range w) = .d1 (List.range w))
    ∧ (∀ k : Kernel, k.dimensions = [w, h] → k.threadDim = [w, h, 1] →
      combinedKernelOutput k (List.range (w * h))
        = .d2 ((List.range h).map fun y =>
            (List.range w).map fun x => y * w + x))
    ∧ (∀ k : Kernel, k.dimensions = [w, h, d] → k.threadDim = [w, h, d] →
      combinedKernelOutput k (List.range (w * h * d))
        = .d3 ((List.range d).map fun z => (List.range h).map fun y =>
            (List.range w).map fun x => z * (w * h) + (y * w + x))) := by
  refine ⟨fun k hdim htd => ?_, fun k hdim htd => ?_, fun k hdim htd => ?_⟩
  · simp [combinedKernelOutput, truncatedResult, hdim, htd, List.take_range]
  · simp only [combinedKernelOutput, truncatedResult, hdim, htd]
    simp only [List.getD_cons_zero, List.getD_cons_succ, List.length_cons,
      List.length_nil]
    norm_num [List.take_range]
    rw [Nat.mul_comm w h, splitArray_range_pos w h hw]
  · simp only [combinedKernelOutput, truncatedResult, hdim, htd]
    simp only [List.getD_cons_zero, List.getD_cons_succ, List.length_cons,
      List.length_nil]
    norm_num [List.take_range, Nat.mul_assoc]
    rw [show w * (h * d) = d * (w * h) by ring,
      splitArray_range_pos (w * h) d (by positivity)]
    rw [List.map_map]
    refine List.map_congr_left fun z _ => ?_
    simp only [Function.comp_apply]
    rw [splitArray_map, Nat.mul_comm w h, splitArray_range_pos w h hw,
      List.map_map]
    refine List.map_congr_left fun y _ => ?_
    simp [Function.comp_def, List.map_map]

/-- Witness for C1 at `w = 2`, `h = 3`, `d = 2`: the synthetic buffer
`0..11` decodes to the expected nested indices. -/
theorem combinedKernelOutput_nesting_witness :
    combinedKernelOutput
        (⟨0, 0, false, false, (4, 4), [2, 3, 2], [2, 3, 2]⟩ : Kernel)
        (List.range (2 * 3 * 2))
      = .d3 [[[0, 1], [2, 3], [4, 5]], [[6, 7], [8, 9], [10, 11]]] :=
  ((combinedKernelOutput_nesting 2 3 2 (by decide) (by decide) (by decide)).2.2
    ⟨0, 0, false, false, (4, 4), [2, 3, 2], [2, 3, 2]⟩ rfl rfl).trans
    (by decide)

end GPUJs
